import Mathlib

/-!
Formal model of the gaze-tracking / video-stream core of the healthmate
repository, together with proofs of the spec claims about it.

The embedding is shallow: the TypeScript hook state (React `useState` values
and `useRef` cells) becomes an explicit Lean state record, the event handlers
become pure transition functions on that record, and JavaScript numbers are
modeled as exact rationals (all arithmetic the claims touch is exact in IEEE
doubles over the relevant ranges: integer milliseconds, `1000 * 2^n` versus a
30000 cap, and quotients compared against fixed thresholds far from any
rounding boundary).

Sources embedded here:
  - `useFallDetectionStream` (src/unnamed/part_008): exponential-backoff
    video-stream reconnector.
  - `useGazeTracking` (src/unnamed/part_004): transport client, calibration
    state machine, tracking lifecycle.
  - `OnScreenKeyboard` (src/components/patient/OnScreenKeyboard.tsx): dwell
    selection engine.
-/

/- ## Reconnection policy (src/unnamed/part_008 lines 37-42, duplicated in
src/unnamed/part_006 lines 1005-1010) -/

/-- Translation of `getReconnectDelay` from the source:
`Math.min(baseDelay * Math.pow(2, attempt), maxDelay)` with
`baseDelay = 1000`, `maxDelay = 30000`.  For every attempt the double
computation is exact (`1000 * 2^n` is exactly representable until the cap
makes its value irrelevant), so `Nat` arithmetic is a faithful model. -/
def getReconnectDelay (attempt : Nat) : Nat :=
  let baseDelay := 1000
  let maxDelay := 30000
  min (baseDelay * 2 ^ attempt) maxDelay

/-- Reference definition written from the words of the spec formula
`delay(n) = min(baseDelay * 2^n, maxDelay)`; compared against the
source-derived `getReconnectDelay`. -/
def delaySpec (n : Nat) : Nat :=
  min (1000 * 2 ^ n) 30000

/- ## Data model of the gaze-tracking hook (src/unnamed/part_004) -/

/-- A planar point with rational coordinates (the inline `\x7bx, y\x7d` object
shape used throughout the source). -/
structure Coord where
  x : ℚ
  y : ℚ
  deriving Repr, DecidableEq

/-- Translation of the `IrisCenters` interface. -/
structure IrisCenters where
  left : Coord
  right : Coord
  mid : Coord
  deriving Repr, DecidableEq

/-- Translation of the `GazeData` interface (success flag, normalized
coordinates, confidence, quality label, optional error and iris payload). -/
structure GazeData where
  success : Bool
  x : ℚ
  y : ℚ
  confidence : ℚ
  quality : String
  error : Option String
  irisCenters : Option IrisCenters
  deriving Repr, DecidableEq

/-- Translation of the `CalibrationPoint` interface. -/
structure CalibrationPoint where
  x : ℚ
  y : ℚ
  deriving Repr, DecidableEq

/-- Translation of the `CalibrationStatus` interface. -/
structure CalibrationStatus where
  isCalibrating : Bool
  currentPoint : Option CalibrationPoint
  pointIndex : Nat
  totalPoints : Nat
  samplesCollected : Nat
  samplesPerPoint : Nat
  isCalibrated : Bool
  deriving Repr, DecidableEq

/-- Translation of the `GazeTrackingStats` interface. -/
structure GazeTrackingStats where
  framesProcessed : Nat
  framesDropped : Nat
  effectiveFps : ℚ
  calibrationPoints : Nat
  isCalibrated : Bool
  deriving Repr, DecidableEq

/-- Translation of `DEFAULT_CALIBRATION_POINTS`: the fixed 9-point grid. -/
def defaultCalibrationPoints : List CalibrationPoint :=
  [ ⟨1/10, 1/10⟩, ⟨1/2, 1/10⟩, ⟨9/10, 1/10⟩,
    ⟨1/10, 1/2⟩,  ⟨1/2, 1/2⟩,  ⟨9/10, 1/2⟩,
    ⟨1/10, 9/10⟩, ⟨1/2, 9/10⟩, ⟨9/10, 9/10⟩ ]

/-- Translation of `DEFAULT_SAMPLES_PER_POINT`. -/
def defaultSamplesPerPoint : Nat := 10

/-- The configuration options of `useGazeTracking` that the modeled behavior
depends on (`samplesPerCalibrationPoint`, default 10). -/
structure GazeTrackingConfig where
  samplesPerCalibrationPoint : Nat := defaultSamplesPerPoint
  deriving Repr, DecidableEq

/-- Inbound server messages as a closed tagged union: one case per branch of
the `switch (data.type)` in `handleMessage`. -/
inductive ServerMessage where
  | gazeDataMsg (success : Bool) (x y confidence : ℚ) (quality : String)
      (error : Option String) (irisCentersField : Option IrisCenters)
  | calibrationResponse (success : Bool) (samplesCollected : Nat)
      (isCalibrated : Bool)
  | calibrationReset
  | statsMsg (framesProcessed framesDropped : Nat) (effectiveFps : ℚ)
      (calibrationPoints : Nat) (isCalibrated : Bool)
  | heartbeat
  | errorMsg (message : String)
  deriving Repr, DecidableEq

/-- Outbound wire messages, tagged by the `action` field of the JSON the
source sends. -/
inductive OutboundMessage where
  | track (frame : String)
  | calibrate (frame : String) (targetX targetY : ℚ)
  | resetCalibrationAction
  | getStatsAction
  deriving Repr, DecidableEq

/-- The mutable state of one `useGazeTracking` instance: every `useState`
value and every behavior-relevant `useRef` cell.  `wsOpen` models
`wsRef.current` being a socket in the `OPEN` ready state; `videoFrame` models
what `captureFrame()` would return right now (`none` when the video element
has no decodable frame, `readyState < 2`); `trackingIntervalActive` models
`trackingIntervalRef.current` holding a live interval handle. -/
structure HookState where
  wsOpen : Bool
  isConnected : Bool
  isConnecting : Bool
  connectionError : Option String
  isTracking : Bool
  gazeData : Option GazeData
  isCameraActive : Bool
  cameraError : Option String
  calibrationStatus : CalibrationStatus
  calibrationSamplesRef : Nat
  trackingIntervalActive : Bool
  stats : Option GazeTrackingStats
  videoFrame : Option String
  deriving Repr, DecidableEq

/-- Translation of `handleMessage`.  The argument is `none` when `JSON.parse`
throws on the raw payload: the surrounding `try/catch` logs the error and
leaves every piece of state untouched, and because the whole handler body is
inside that `try`, the function is total — no exception escapes the dispatch
loop.  A parsed message is dispatched by its `type` tag exactly as the
`switch` does. -/
def handleMessage (cfg : GazeTrackingConfig) (s : HookState)
    (msg : Option ServerMessage) : HookState :=
  match msg with
  | none => s
  | some m =>
    match m with
    | .gazeDataMsg success x y confidence quality err iris =>
      if success then
        { s with gazeData := some {
            success := true, x := x, y := y, confidence := confidence,
            quality := quality, error := none, irisCenters := iris } }
      else
        { s with gazeData := some {
            success := false, x := 0, y := 0, confidence := 0,
            quality := "none", error := err, irisCenters := none } }
    | .calibrationResponse success n calFlag =>
      if success then
        let s1 := { s with
          calibrationSamplesRef := n,
          calibrationStatus := { s.calibrationStatus with
            samplesCollected := n, isCalibrated := calFlag } }
        if cfg.samplesPerCalibrationPoint ≤ n then
          let prev := s1.calibrationStatus
          let nextIndex := prev.pointIndex + 1
          if defaultCalibrationPoints.length ≤ nextIndex then
            { s1 with calibrationStatus := { prev with
                isCalibrating := false, currentPoint := none,
                isCalibrated := true } }
          else
            { s1 with
              calibrationSamplesRef := 0,
              calibrationStatus := { prev with
                pointIndex := nextIndex,
                currentPoint := defaultCalibrationPoints.get? nextIndex,
                samplesCollected := 0 } }
        else s1
      else s
    | .calibrationReset =>
      { s with
        calibrationStatus := { s.calibrationStatus with
          isCalibrated := false, samplesCollected := 0, pointIndex := 0 },
        calibrationSamplesRef := 0 }
    | .statsMsg fp fd fps cp calFlag =>
      { s with stats := some ⟨fp, fd, fps, cp, calFlag⟩ }
    | .heartbeat => s
    | .errorMsg _ => s

/-- Folding the dispatcher over a sequence of inbound payloads, in delivery
order. -/
def dispatchAll (cfg : GazeTrackingConfig) (s : HookState)
    (msgs : List (Option ServerMessage)) : HookState :=
  msgs.foldl (handleMessage cfg) s

/-- Translation of `disconnect`: clear the frame-send interval, close the
socket (the `onclose` handler repeats the flag clearing), set `isConnected`
and `isTracking` to false.  `gazeData`, the calibration status and the sample
ref are not touched. -/
def disconnect (s : HookState) : HookState :=
  { s with
    trackingIntervalActive := false,
    wsOpen := false,
    isConnected := false,
    isTracking := false }

/-- Translation of `stopTracking`: cancel the send loop, clear the tracking
flag, clear the last gaze sample. -/
def stopTracking (s : HookState) : HookState :=
  { s with
    trackingIntervalActive := false,
    isTracking := false,
    gazeData := none }

/-- Translation of `startTracking`.  The guard logs a warning and returns
when not both connected and camera-active; otherwise the tracking flag is set
and the periodic frame-send interval is started (the sends themselves happen
later, on interval ticks, so the synchronous call sends nothing either way).
The second component lists the messages sent synchronously by the call. -/
def startTracking (s : HookState) : HookState × List OutboundMessage :=
  if s.isConnected ∧ s.isCameraActive then
    ({ s with isTracking := true, trackingIntervalActive := true }, [])
  else
    (s, [])

/-- Translation of `startCalibration`: guarded the same way as
`startTracking`; on success resets the sample ref and installs the initial
calibration status at point 0. -/
def startCalibration (cfg : GazeTrackingConfig) (s : HookState) : HookState :=
  if s.isConnected ∧ s.isCameraActive then
    { s with
      calibrationSamplesRef := 0,
      calibrationStatus :=
        { isCalibrating := true,
          currentPoint := defaultCalibrationPoints.get? 0,
          pointIndex := 0,
          totalPoints := defaultCalibrationPoints.length,
          samplesCollected := 0,
          samplesPerPoint := cfg.samplesPerCalibrationPoint,
          isCalibrated := false } }
  else s

/-- Translation of `cancelCalibration`: only `isCalibrating` and
`currentPoint` change; every other calibration field is spread from the
previous status. -/
def cancelCalibration (s : HookState) : HookState :=
  { s with
    calibrationStatus := { s.calibrationStatus with
      isCalibrating := false, currentPoint := none } }

/-- Translation of `collectCalibrationSample`: returns without sending when
the socket is not open or `captureFrame()` yields no frame; otherwise sends
one `calibrate` message with the frame and target coordinates.  No state is
written on any path. -/
def collectCalibrationSample (s : HookState) (targetX targetY : ℚ) :
    HookState × List OutboundMessage :=
  if s.wsOpen then
    match s.videoFrame with
    | none => (s, [])
    | some f => (s, [.calibrate f targetX targetY])
  else (s, [])

/-- Translation of `resetCalibration`: returns without sending when the
socket is not open; otherwise sends `reset_calibration`, zeroes the sample
ref, and installs a fully reset calibration status. -/
def resetCalibration (cfg : GazeTrackingConfig) (s : HookState) :
    HookState × List OutboundMessage :=
  if s.wsOpen then
    ({ s with
        calibrationSamplesRef := 0,
        calibrationStatus :=
          { isCalibrating := false,
            currentPoint := none,
            pointIndex := 0,
            totalPoints := defaultCalibrationPoints.length,
            samplesCollected := 0,
            samplesPerPoint := cfg.samplesPerCalibrationPoint,
            isCalibrated := false } },
     [.resetCalibrationAction])
  else (s, [])

/-- Translation of `getStats`: sends `get_stats` when the socket is open. -/
def getStats (s : HookState) : HookState × List OutboundMessage :=
  if s.wsOpen then (s, [.getStatsAction]) else (s, [])

/- ## Video stream reconnector (src/unnamed/part_008, `useFallDetectionStream`) -/

/-- The React state of `useFallDetectionStream` that the retry loop touches. -/
structure VideoStreamState where
  isConnected : Bool
  error : Option String
  reconnectAttempt : Nat
  deriving Repr, DecidableEq

/-- One failed iteration of the automatic retry chain started at mount.

In the source, `scheduleReconnect` is a `useCallback` closure; the timeout it
arms calls `setReconnectAttempt(prev => prev + 1)` and probes the stream, and
on `img.onerror` it records the error and calls `scheduleReconnect()` again.
That recursive call resolves lexically to the closure of the render in which
the running instance was created, so the `reconnectAttempt` it reads when
computing the next delay is the value captured at that render, not the
current React state.  The chain entered from the mount effect runs entirely
inside the closure that captured `reconnectAttempt = 0`.  `captured` is that
frozen value; the returned `Nat` is the delay scheduled before the next
attempt, `getReconnectDelay captured`. -/
def retryFailStep (captured : Nat) (s : VideoStreamState) :
    VideoStreamState × Nat :=
  ({ isConnected := false,
     error := some "Failed to connect to video stream",
     reconnectAttempt := s.reconnectAttempt + 1 },
   getReconnectDelay captured)

/-- State and scheduled-delay trace of `n` consecutive failures of the
automatic retry chain, all run inside the closure that captured `captured`:
the list holds, oldest first, the delay scheduled after each failure, which
is the elapsed time between that failure and the next attempt. -/
def retryChain (captured : Nat) (s : VideoStreamState) :
    Nat → VideoStreamState × List Nat
  | 0 => (s, [])
  | n + 1 =>
    let (s1, d) := retryFailStep captured s
    let (s2, ds) := retryChain captured s1 n
    (s2, d :: ds)

/-- The state after the very first probe failure at mount: `reconnect()` ran
with `reconnectAttempt = 0`, the probe failed, the error was recorded and the
first retry was scheduled.  Every closure in the ensuing chain captured
`reconnectAttempt = 0`. -/
def mountFirstFailureState : VideoStreamState :=
  { isConnected := false,
    error := some "Failed to connect to video stream",
    reconnectAttempt := 0 }

/-- Delays between successive retry attempts after `n` consecutive failures
of the chain started at mount. -/
def mountFailureDelays (n : Nat) : List Nat :=
  (retryChain 0 mountFirstFailureState n).2

/-- Reference definition written from the words of the spec for the retry
loop: schedule the next attempt after `delay(attemptCounter)` and increment
the counter on the subsequent failure, reading the counter fresh each time. -/
def specRetryDelays (counter : Nat) : Nat → List Nat
  | 0 => []
  | n + 1 => getReconnectDelay counter :: specRetryDelays (counter + 1) n

/- ## Dwell selection engine (src/components/patient/OnScreenKeyboard.tsx) -/

/-- A key hit-target rectangle in screen pixels, as returned by
`getBoundingClientRect()`. -/
structure KeyRect where
  left : ℚ
  right : ℚ
  top : ℚ
  bottom : ℚ
  deriving Repr, DecidableEq

/-- The inputs of the dwell engine that are fixed across one trace: the dwell
threshold in ms, the viewport dimensions, and the registered key rectangles
in `keyRefs` iteration order. -/
structure DwellConfig where
  dwellTime : ℤ
  innerWidth : ℚ
  innerHeight : ℚ
  keys : List (String × KeyRect)
  deriving Repr, DecidableEq

/-- Translation of `findGazedKey`: scale the normalized gaze point to screen
coordinates and return the first registered key whose rectangle, widened by
the fixed 5-pixel padding, contains it. -/
def findGazedKey (cfg : DwellConfig) (gazeX gazeY : ℚ) : Option String :=
  let screenX := gazeX * cfg.innerWidth
  let screenY := gazeY * cfg.innerHeight
  let padding : ℚ := 5
  (cfg.keys.find? (fun kr =>
    decide (kr.2.left - padding ≤ screenX) &&
    decide (screenX ≤ kr.2.right + padding) &&
    decide (kr.2.top - padding ≤ screenY) &&
    decide (screenY ≤ kr.2.bottom + padding))).map (·.1)

/-- The dwell state of `OnScreenKeyboard`: the published `gazeKey` and
`dwellProgress` state plus the `dwellStartTimeRef` and `lastGazeKeyRef`
cells.  `timer` models `dwellTimerRef`: `some k` means one `updateDwell`
animation-frame callback is pending and captured `currentGazedKey = k`
(the source schedules a callback only when a key is gazed). -/
structure DwellState where
  gazeKey : Option String
  dwellProgress : ℚ
  dwellStart : Option ℤ
  lastGazeKey : Option String
  timer : Option String
  deriving Repr, DecidableEq

/-- The initial dwell state (all `useState` initializers and refs null). -/
def initDwellState : DwellState :=
  { gazeKey := none, dwellProgress := 0, dwellStart := none,
    lastGazeKey := none, timer := none }

/-- Events driving the dwell engine.  A `sampleEvent` is one run of the dwell
`useEffect`, triggered by a new `gazeData` value (or a `gazeEnabled` flip) at
time `now` (ms); a `frameEvent` is one pending `updateDwell` animation-frame
callback running at time `now`.  The effect cleanup cancels the pending
callback before the next effect body runs, so at most one callback is live,
which is why a single `timer` slot is a faithful model. -/
inductive DwellEvent where
  | sampleEvent (enabled : Bool) (g : Option GazeData) (now : ℤ)
  | frameEvent (now : ℤ)
  deriving Repr, DecidableEq

/-- Timestamp carried by an event. -/
def DwellEvent.time : DwellEvent → ℤ
  | .sampleEvent _ _ now => now
  | .frameEvent now => now

/-- Whether an event is an animation-frame callback run. -/
def DwellEvent.isFrame : DwellEvent → Prop
  | .sampleEvent _ _ _ => False
  | .frameEvent _ => True

instance : DecidablePred DwellEvent.isFrame := fun e => by
  cases e <;> simp [DwellEvent.isFrame] <;> infer_instance

/-- Translation of the guard `gazeEnabled && gazeData?.success`. -/
def gazeOK (enabled : Bool) (g : Option GazeData) : Bool :=
  enabled && (match g with | some gd => gd.success | none => false)

/-- One step of the dwell engine.  Returns the new state and the selection
events fired during the step, tagged with the firing time.

For a `sampleEvent` this is one run of the dwell `useEffect` (lines 129-192
of the source): the cleanup of the previous effect has cancelled the pending
animation frame; if gaze is disabled or the sample unsuccessful all dwell
state is cleared; otherwise the gazed key is computed and published, a changed
target resets `lastGazeKeyRef`, `dwellStartTimeRef` and the progress, and a
gazed key with a live start time arms a new `updateDwell` callback.

For a `frameEvent` this is one `updateDwell` run: it returns if no start time
is set or the captured key no longer equals `lastGazeKeyRef`; otherwise it
publishes `min(100, elapsed / dwellTime * 100)`, and on reaching 100 fires
the selection once, moves the start time to `now + 200` (the cooldown) and
does not reschedule itself; below 100 it reschedules. -/
def dwellStep (cfg : DwellConfig) (s : DwellState) :
    DwellEvent → DwellState × List (ℤ × String)
  | .sampleEvent enabled g now =>
    if gazeOK enabled g then
      match g with
      | some gd =>
        let k := findGazedKey cfg gd.x gd.y
        let s1 := { s with timer := none, gazeKey := k }
        let s2 :=
          if k ≠ s1.lastGazeKey then
            { s1 with
              lastGazeKey := k,
              dwellStart := if k.isSome then some now else none,
              dwellProgress := 0,
              timer := none }
          else s1
        let s3 :=
          match k, s2.dwellStart with
          | some key, some _ => { s2 with timer := some key }
          | _, _ => s2
        (s3, [])
      | none => (initDwellState, [])
    else (initDwellState, [])
  | .frameEvent now =>
    match s.timer with
    | none => (s, [])
    | some k =>
      let s0 := { s with timer := none }
      match s0.dwellStart with
      | none => (s0, [])
      | some t0 =>
        if s0.lastGazeKey ≠ some k then (s0, [])
        else
          let progress : ℚ := min 100 (((now - t0 : ℤ) : ℚ) / (cfg.dwellTime : ℚ) * 100)
          if 100 ≤ progress then
            ({ s0 with dwellProgress := 0, dwellStart := some (now + 200) },
             [(now, k)])
          else
            ({ s0 with dwellProgress := progress, timer := some k }, [])

/-- Running the dwell engine over an event trace, collecting fired
selections in order. -/
def dwellRun (cfg : DwellConfig) (s : DwellState) :
    List DwellEvent → DwellState × List (ℤ × String)
  | [] => (s, [])
  | e :: es =>
    let (s1, f) := dwellStep cfg s e
    let (s2, fs) := dwellRun cfg s1 es
    (s2, f ++ fs)

/-- An event that keeps a continuous hold on key `k`: either an animation
frame, or an effect run with gaze enabled, a successful sample, and the gaze
point landing on `k`. -/
def holdEvent (cfg : DwellConfig) (k : String) : DwellEvent → Prop
  | .sampleEvent enabled g _ =>
    enabled = true ∧ ∃ gd, g = some gd ∧ gd.success = true ∧
      findGazedKey cfg gd.x gd.y = some k
  | .frameEvent _ => True

/- ## Concrete fixtures used by witness theorems -/

/-- The initial calibration status installed by the `useState` initializer of
`useGazeTracking` (with the default samples-per-point option). -/
def initialCalibrationStatus : CalibrationStatus :=
  { isCalibrating := false,
    currentPoint := none,
    pointIndex := 0,
    totalPoints := defaultCalibrationPoints.length,
    samplesCollected := 0,
    samplesPerPoint := defaultSamplesPerPoint,
    isCalibrated := false }

/-- The initial hook state: every `useState` initializer and null ref of
`useGazeTracking`. -/
def initialHookState : HookState :=
  { wsOpen := false,
    isConnected := false,
    isConnecting := false,
    connectionError := none,
    isTracking := false,
    gazeData := none,
    isCameraActive := false,
    cameraError := none,
    calibrationStatus := initialCalibrationStatus,
    calibrationSamplesRef := 0,
    trackingIntervalActive := false,
    stats := none,
    videoFrame := none }

/-- A hook state in the middle of calibrating point 0 with 3 of 10 samples
collected. -/
def midCalibrationState : HookState :=
  { initialHookState with
    calibrationStatus := { initialCalibrationStatus with
      isCalibrating := true,
      currentPoint := defaultCalibrationPoints.get? 0,
      samplesCollected := 3 } }

/-- A small dwell configuration for witnesses: default 800 ms threshold, a
100 by 100 viewport, and two keys side by side. -/
def sampleDwellConfig : DwellConfig :=
  { dwellTime := 800,
    innerWidth := 100,
    innerHeight := 100,
    keys := [("a", ⟨0, 10, 0, 10⟩), ("b", ⟨20, 30, 0, 10⟩)] }

/-- A successful gaze sample landing on key `a` of `sampleDwellConfig`. -/
def sampleGazeOnA : GazeData :=
  { success := true, x := 1/20, y := 1/20, confidence := 1,
    quality := "good", error := none, irisCenters := none }

/-- A successful gaze sample landing on key `b` of `sampleDwellConfig`. -/
def sampleGazeOnB : GazeData :=
  { success := true, x := 1/4, y := 1/20, confidence := 1,
    quality := "good", error := none, irisCenters := none }

/-- A dwell state mid-hold on key `a` with 62 percent progress. -/
def dwellHoldingAState : DwellState :=
  { gazeKey := some "a", dwellProgress := 62, dwellStart := some 0,
    lastGazeKey := some "a", timer := some "a" }

/- ## Helper lemmas on the calibration response handler -/

/-- A successful calibration response below the quota only mirrors the
reported count and calibrated flag. -/
theorem handleMessage_calibResponse_low (cfg : GazeTrackingConfig)
    (s : HookState) (n : Nat) (calFlag : Bool)
    (hn : n < cfg.samplesPerCalibrationPoint) :
    handleMessage cfg s (some (.calibrationResponse true n calFlag)) =
      { s with
        calibrationSamplesRef := n,
        calibrationStatus := { s.calibrationStatus with
          samplesCollected := n, isCalibrated := calFlag } } := by
  simp only [handleMessage, if_true]
  rw [if_neg (by omega)]

/-- A successful calibration response meeting the quota on a non-final point
advances the index and zeroes the collected-sample count. -/
theorem handleMessage_calibResponse_advance (cfg : GazeTrackingConfig)
    (s : HookState) (n : Nat) (calFlag : Bool)
    (hn : cfg.samplesPerCalibrationPoint ≤ n)
    (hidx : s.calibrationStatus.pointIndex + 1 < 9) :
    handleMessage cfg s (some (.calibrationResponse true n calFlag)) =
      { s with
        calibrationSamplesRef := 0,
        calibrationStatus := { s.calibrationStatus with
          pointIndex := s.calibrationStatus.pointIndex + 1,
          currentPoint :=
            defaultCalibrationPoints.get? (s.calibrationStatus.pointIndex + 1),
          samplesCollected := 0,
          isCalibrated := calFlag } } := by
  have hlen : defaultCalibrationPoints.length = 9 := rfl
  simp only [handleMessage, if_true, hlen]
  rw [if_pos hn, if_neg (by omega)]

/-- A successful calibration response meeting the quota on the final point
ends the session: calibrating off, no current point, calibrated on. -/
theorem handleMessage_calibResponse_complete (cfg : GazeTrackingConfig)
    (s : HookState) (n : Nat) (calFlag : Bool)
    (hn : cfg.samplesPerCalibrationPoint ≤ n)
    (hidx : 9 ≤ s.calibrationStatus.pointIndex + 1) :
    handleMessage cfg s (some (.calibrationResponse true n calFlag)) =
      { s with
        calibrationSamplesRef := n,
        calibrationStatus := { s.calibrationStatus with
          samplesCollected := n,
          isCalibrating := false,
          currentPoint := none,
          isCalibrated := true } } := by
  have hlen : defaultCalibrationPoints.length = 9 := rfl
  simp only [handleMessage, if_true, hlen]
  rw [if_pos hn, if_pos (by omega)]

/- ## Claim theorems -/

/-- C1: the reconnection delay function equals the reference definition
`delay(n) = min(1000 * 2^n, 30000)`; `delay(0) = 1000`; it is monotonically
non-decreasing; it is bounded by 30000; and its first six values are exactly
1000, 2000, 4000, 8000, 16000, 30000. -/
theorem reconnect_delay_matches_spec :
    (∀ n, getReconnectDelay n = delaySpec n) ∧
    getReconnectDelay 0 = 1000 ∧
    (∀ n, getReconnectDelay n ≤ getReconnectDelay (n + 1)) ∧
    (∀ n, getReconnectDelay n ≤ 30000) ∧
    (List.range 6).map getReconnectDelay =
      [1000, 2000, 4000, 8000, 16000, 30000] := by
  refine ⟨fun n => rfl, rfl, fun n => ?_, fun n => ?_, by decide⟩
  · simp only [getReconnectDelay]
    exact min_le_min
      (mul_le_mul_left' (Nat.pow_le_pow_right (by norm_num) (Nat.le_succ n)) 1000)
      le_rfl
  · simp only [getReconnectDelay]
    exact min_le_right _ _

/-- C2: while calibrating, a successful calibration response meeting the
per-point quota advances the point index by exactly 1 and resets the
collected count to 0, except on the last of the 9 points, where the machine
transitions to Complete; a count below the quota does not advance the
index. -/
theorem calibration_point_advancement (cfg : GazeTrackingConfig)
    (s : HookState) (n : Nat) (calFlag : Bool)
    (_hcal : s.calibrationStatus.isCalibrating = true) :
    (cfg.samplesPerCalibrationPoint ≤ n →
      (s.calibrationStatus.pointIndex < 8 →
        (handleMessage cfg s
            (some (.calibrationResponse true n calFlag))).calibrationStatus.pointIndex
          = s.calibrationStatus.pointIndex + 1 ∧
        (handleMessage cfg s
            (some (.calibrationResponse true n calFlag))).calibrationStatus.samplesCollected
          = 0) ∧
      (s.calibrationStatus.pointIndex = 8 →
        (handleMessage cfg s
            (some (.calibrationResponse true n calFlag))).calibrationStatus.isCalibrating
          = false ∧
        (handleMessage cfg s
            (some (.calibrationResponse true n calFlag))).calibrationStatus.isCalibrated
          = true ∧
        (handleMessage cfg s
            (some (.calibrationResponse true n calFlag))).calibrationStatus.currentPoint
          = none)) ∧
    (n < cfg.samplesPerCalibrationPoint →
      (handleMessage cfg s
          (some (.calibrationResponse true n calFlag))).calibrationStatus.pointIndex
        = s.calibrationStatus.pointIndex) := by
  refine ⟨fun hn => ⟨fun hidx => ?_, fun hidx => ?_⟩, fun hn => ?_⟩
  · rw [handleMessage_calibResponse_advance cfg s n calFlag hn (by omega)]
    exact ⟨rfl, rfl⟩
  · rw [handleMessage_calibResponse_complete cfg s n calFlag hn (by omega)]
    exact ⟨rfl, rfl, rfl⟩
  · rw [handleMessage_calibResponse_low cfg s n calFlag hn]

/-- Witness for C2 at concrete inputs: from point 0 with the quota met the
index advances to 1 with zero samples; from point 8 the session completes;
below the quota the index stays. -/
theorem calibration_point_advancement_witness :
    (handleMessage {} midCalibrationState
        (some (.calibrationResponse true 10 false))).calibrationStatus.pointIndex = 1 ∧
    (handleMessage {} midCalibrationState
        (some (.calibrationResponse true 10 false))).calibrationStatus.samplesCollected = 0 ∧
    (handleMessage {} midCalibrationState
        (some (.calibrationResponse true 3 false))).calibrationStatus.pointIndex = 0 := by
  have h := calibration_point_advancement {} midCalibrationState 10 false (by decide)
  have h3 := calibration_point_advancement {} midCalibrationState 3 false (by decide)
  exact ⟨((h.1 (by decide)).1 (by decide)).1, ((h.1 (by decide)).1 (by decide)).2,
    h3.2 (by decide)⟩

/-- C5: cancelCalibration clears `isCalibrating` and `currentPoint` but
leaves `isCalibrated` unchanged (a completed calibration survives a cancelled
recalibration), while resetCalibration clears `isCalibrated`,
`samplesCollected` and `pointIndex` and sends a `reset_calibration`
instruction. -/
theorem calibration_cancel_vs_reset (cfg : GazeTrackingConfig) (s : HookState)
    (hws : s.wsOpen = true) :
    (cancelCalibration s).calibrationStatus.isCalibrating = false ∧
    (cancelCalibration s).calibrationStatus.currentPoint = none ∧
    (cancelCalibration s).calibrationStatus.isCalibrated
      = s.calibrationStatus.isCalibrated ∧
    (resetCalibration cfg s).1.calibrationStatus.isCalibrated = false ∧
    (resetCalibration cfg s).1.calibrationStatus.samplesCollected = 0 ∧
    (resetCalibration cfg s).1.calibrationStatus.pointIndex = 0 ∧
    (resetCalibration cfg s).2 = [.resetCalibrationAction] := by
  simp [cancelCalibration, resetCalibration, hws]

/-- Witness for C5: after a completed calibration, cancel keeps
`isCalibrated = true` and reset clears it, sending the reset instruction. -/
theorem calibration_cancel_vs_reset_witness :
    (cancelCalibration { initialHookState with
        wsOpen := true,
        calibrationStatus := { initialCalibrationStatus with
          isCalibrated := true } }).calibrationStatus.isCalibrated = true ∧
    (resetCalibration {} { initialHookState with
        wsOpen := true,
        calibrationStatus := { initialCalibrationStatus with
          isCalibrated := true } }).1.calibrationStatus.isCalibrated = false ∧
    (resetCalibration {} { initialHookState with
        wsOpen := true,
        calibrationStatus := { initialCalibrationStatus with
          isCalibrated := true } }).2 = [.resetCalibrationAction] := by
  have h := calibration_cancel_vs_reset {} { initialHookState with
    wsOpen := true,
    calibrationStatus := { initialCalibrationStatus with isCalibrated := true } }
    (by decide)
  refine ⟨?_, h.2.2.2.1, h.2.2.2.2.2.2⟩
  rw [h.2.2.1]

/-- C6 counterexample: in `midCalibrationState` (calibrating point 0 of 9,
3 of 10 samples) a successful calibration response carrying
`is_calibrated = true` does not reconcile to Complete — the state keeps
calibrating with the same current point, contradicting the claim that
`isCalibrating` becomes false and `currentPoint` null. -/
theorem midCalibration_no_reconcile_counterexample :
    (handleMessage {} midCalibrationState
        (some (.calibrationResponse true 3 true))).calibrationStatus.isCalibrating
      = true ∧
    (handleMessage {} midCalibrationState
        (some (.calibrationResponse true 3 true))).calibrationStatus.currentPoint
      ≠ none ∧
    (handleMessage {} midCalibrationState
        (some (.calibrationResponse true 3 true))).calibrationStatus.isCalibrated
      = true := by
  decide

/-- C6 (amended): a successful mid-sequence calibration response below the
quota records the reported `is_calibrated` flag but does not end the session:
`isCalibrating`, `currentPoint` and `pointIndex` are unchanged and the point
sequence continues; the session reconciles to Complete only when a reported
count meets the quota. -/
theorem midCalibration_flag_only (cfg : GazeTrackingConfig) (s : HookState)
    (n : Nat) (calFlag : Bool) (hn : n < cfg.samplesPerCalibrationPoint) :
    (handleMessage cfg s
        (some (.calibrationResponse true n calFlag))).calibrationStatus.isCalibrated
      = calFlag ∧
    (handleMessage cfg s
        (some (.calibrationResponse true n calFlag))).calibrationStatus.isCalibrating
      = s.calibrationStatus.isCalibrating ∧
    (handleMessage cfg s
        (some (.calibrationResponse true n calFlag))).calibrationStatus.currentPoint
      = s.calibrationStatus.currentPoint ∧
    (handleMessage cfg s
        (some (.calibrationResponse true n calFlag))).calibrationStatus.pointIndex
      = s.calibrationStatus.pointIndex ∧
    (handleMessage cfg s
        (some (.calibrationResponse true n calFlag))).calibrationStatus.samplesCollected
      = n := by
  rw [handleMessage_calibResponse_low cfg s n calFlag hn]
  exact ⟨rfl, rfl, rfl, rfl, rfl⟩

/-- Witness for the amended C6: the counterexample state with a mid-sequence
calibrated flag keeps calibrating. -/
theorem midCalibration_flag_only_witness :
    (handleMessage {} midCalibrationState
        (some (.calibrationResponse true 3 true))).calibrationStatus.isCalibrated
      = true ∧
    (handleMessage {} midCalibrationState
        (some (.calibrationResponse true 3 true))).calibrationStatus.isCalibrating
      = midCalibrationState.calibrationStatus.isCalibrating := by
  have h := midCalibration_flag_only {} midCalibrationState 3 true (by decide)
  exact ⟨h.1, h.2.1⟩

/-- C7: evidence of the divergence between the documented exponential backoff
and the code.  The automatic retry chain started at mount runs inside the
`scheduleReconnect` closure that captured `reconnectAttempt = 0`, so after 5
consecutive failures the delays between successive attempts are all 1000 ms,
while the state counter does reach 5 and the fresh-read reference model of
the spec (and of the source doc comment) yields 1000, 2000, 4000, 8000,
16000. -/
theorem video_retry_backoff_constant :
    mountFailureDelays 5 = [1000, 1000, 1000, 1000, 1000] ∧
    (retryChain 0 mountFirstFailureState 5).1.reconnectAttempt = 5 ∧
    specRetryDelays 0 5 = [1000, 2000, 4000, 8000, 16000] ∧
    mountFailureDelays 5 ≠ specRetryDelays 0 5 := by
  refine ⟨rfl, rfl, rfl, by decide⟩

/-- C8: a malformed (unparseable) inbound payload leaves the entire hook
state unchanged — no gaze, calibration, connection or stats field moves, and
no exception escapes (the handler is total) — and dispatching a
malformed-then-rest sequence equals dispatching the rest alone, so any
subsequent well-formed message is processed normally. -/
theorem malformed_message_resilience (cfg : GazeTrackingConfig)
    (s : HookState) (msgs : List (Option ServerMessage)) :
    handleMessage cfg s none = s ∧
    dispatchAll cfg s (none :: msgs) = dispatchAll cfg s msgs := by
  exact ⟨rfl, rfl⟩

/-- C9: operations invoked with unmet preconditions are exact no-ops, each
under its own precondition: startTracking without both connection and camera
(whatever the socket state) changes nothing and sends nothing, and
collectCalibrationSample and resetCalibration with the socket closed
(whatever the connection and camera flags) change nothing and send
nothing. -/
theorem precondition_violations_noop (cfg : GazeTrackingConfig)
    (s : HookState) (targetX targetY : ℚ) :
    (¬(s.isConnected = true ∧ s.isCameraActive = true) →
      startTracking s = (s, [])) ∧
    (s.wsOpen = false →
      collectCalibrationSample s targetX targetY = (s, []) ∧
      resetCalibration cfg s = (s, [])) := by
  refine ⟨fun hpre => ?_, fun hws => ⟨?_, ?_⟩⟩
  · simp only [startTracking]
    rw [if_neg (by simpa using hpre)]
  · simp [collectCalibrationSample, hws]
  · simp [resetCalibration, hws]

/-- Witness for C9: the startTracking no-op at a connected state whose
camera is off while the socket is open, and the collect/reset no-ops at the
initial (socket-closed) state. -/
theorem precondition_violations_noop_witness :
    startTracking { initialHookState with wsOpen := true, isConnected := true }
      = ({ initialHookState with wsOpen := true, isConnected := true }, []) ∧
    collectCalibrationSample initialHookState 0 0 = (initialHookState, []) ∧
    resetCalibration {} initialHookState = (initialHookState, []) :=
  ⟨(precondition_violations_noop {}
      { initialHookState with wsOpen := true, isConnected := true } 0 0).1
      (by decide),
   ((precondition_violations_noop {} initialHookState 0 0).2 (by decide)).1,
   ((precondition_violations_noop {} initialHookState 0 0).2 (by decide)).2⟩

/-- C10: disconnect cancels the frame-send loop, closes the socket, and
clears `isConnected` and `isTracking`, while leaving the last gaze sample and
all calibration state unchanged; the gaze sample is cleared by stopTracking,
so it remains observable after a disconnect. -/
theorem disconnect_preserves_gaze_and_calibration (s : HookState) :
    (disconnect s).isConnected = false ∧
    (disconnect s).isTracking = false ∧
    (disconnect s).wsOpen = false ∧
    (disconnect s).trackingIntervalActive = false ∧
    (disconnect s).gazeData = s.gazeData ∧
    (disconnect s).calibrationStatus = s.calibrationStatus ∧
    (disconnect s).calibrationSamplesRef = s.calibrationSamplesRef ∧
    (stopTracking s).gazeData = none := by
  exact ⟨rfl, rfl, rfl, rfl, rfl, rfl, rfl, rfl⟩

/- ## Step lemmas on the dwell engine -/

/-- An effect run never fires a selection: selections fire only inside
`updateDwell` animation-frame callbacks. -/
theorem dwellStep_sample_fires_nil (cfg : DwellConfig) (s : DwellState)
    (en : Bool) (g : Option GazeData) (now : ℤ) :
    (dwellStep cfg s (.sampleEvent en g now)).2 = [] := by
  simp only [dwellStep]
  split
  · cases g with
    | none => rfl
    | some gd => rfl
  · rfl

/-- An effect run with gaze disabled or an unsuccessful sample clears all
dwell state and fires nothing. -/
theorem dwellStep_sample_disabled (cfg : DwellConfig) (s : DwellState)
    (en : Bool) (g : Option GazeData) (now : ℤ)
    (h : gazeOK en g = false) :
    dwellStep cfg s (.sampleEvent en g now) = (initDwellState, []) := by
  simp only [dwellStep, h]
  rfl

/-- An effect run that keeps the gaze on the previously held key leaves the
held key and the dwell start time unchanged, and re-arms the callback when a
start time is live. -/
theorem dwellStep_sample_hold (cfg : DwellConfig) (s : DwellState)
    (gd : GazeData) (now : ℤ) (k : String)
    (hsucc : gd.success = true)
    (hfind : findGazedKey cfg gd.x gd.y = some k)
    (hlast : s.lastGazeKey = some k) :
    (dwellStep cfg s (.sampleEvent true (some gd) now)).1.lastGazeKey = some k ∧
    (dwellStep cfg s (.sampleEvent true (some gd) now)).1.dwellStart = s.dwellStart ∧
    (∀ t, s.dwellStart = some t →
      (dwellStep cfg s (.sampleEvent true (some gd) now)).1.timer = some k) := by
  have hok : gazeOK true (some gd) = true := by simp [gazeOK, hsucc]
  simp only [dwellStep, hok, hfind, hlast]
  simp only [ne_eq, not_true_eq_false, if_false, reduceIte]
  cases hst : s.dwellStart with
  | none => simp
  | some t0 => simp

/-- A frame callback with no pending timer is a no-op. -/
theorem dwellStep_frame_noTimer (cfg : DwellConfig) (s : DwellState) (now : ℤ)
    (h : s.timer = none) :
    dwellStep cfg s (.frameEvent now) = (s, []) := by
  simp only [dwellStep, h]

/-- A frame callback whose guard fails (no start time, or the held key moved
away from the captured key) consumes the timer and fires nothing. -/
theorem dwellStep_frame_guard (cfg : DwellConfig) (s : DwellState) (now : ℤ)
    (k0 : String) (h : s.timer = some k0)
    (hg : s.dwellStart = none ∨ s.lastGazeKey ≠ some k0) :
    dwellStep cfg s (.frameEvent now) = ({ s with timer := none }, []) := by
  simp only [dwellStep, h]
  cases hst : s.dwellStart with
  | none => rfl
  | some t0 =>
    rcases hg with hg | hg
    · rw [hg] at hst; cases hst
    · simp only [hg, ne_eq, not_false_eq_true, if_true, reduceIte]

/-- A frame callback below the completion threshold publishes the running
progress, keeps the held key and start time, and reschedules itself. -/
theorem dwellStep_frame_running (cfg : DwellConfig) (s : DwellState)
    (now t0 : ℤ) (k0 : String)
    (h : s.timer = some k0) (hst : s.dwellStart = some t0)
    (hlast : s.lastGazeKey = some k0)
    (hlt : ¬ (100 : ℚ) ≤ min 100 (((now - t0 : ℤ) : ℚ) / (cfg.dwellTime : ℚ) * 100)) :
    dwellStep cfg s (.frameEvent now) =
      ({ s with
          dwellProgress := min 100 (((now - t0 : ℤ) : ℚ) / (cfg.dwellTime : ℚ) * 100),
          timer := some k0 }, []) := by
  simp only [dwellStep, h, hst, hlast]
  simp only [ne_eq, not_true_eq_false, if_false, reduceIte, hlt]

/-- A frame callback at or past the completion threshold fires the selection
once, zeroes the progress, moves the start time to `now + 200` (the
cooldown), and does not reschedule. -/
theorem dwellStep_frame_fire (cfg : DwellConfig) (s : DwellState)
    (now t0 : ℤ) (k0 : String)
    (h : s.timer = some k0) (hst : s.dwellStart = some t0)
    (hlast : s.lastGazeKey = some k0)
    (hge : (100 : ℚ) ≤ min 100 (((now - t0 : ℤ) : ℚ) / (cfg.dwellTime : ℚ) * 100)) :
    dwellStep cfg s (.frameEvent now) =
      ({ s with
          dwellProgress := 0,
          dwellStart := some (now + 200),
          timer := none }, [(now, k0)]) := by
  simp only [dwellStep, h, hst, hlast]
  simp only [ne_eq, not_true_eq_false, if_false, reduceIte, hge]

/-- The progress published by `updateDwell` reaches 100 exactly when the
elapsed time has reached the dwell threshold (for a positive threshold). -/
theorem dwell_progress_complete_iff (dt e : ℤ) (hdt : 0 < dt) :
    ((100 : ℚ) ≤ min 100 ((e : ℚ) / (dt : ℚ) * 100)) ↔ dt ≤ e := by
  have hdt' : (0 : ℚ) < (dt : ℚ) := by exact_mod_cast hdt
  rw [le_min_iff]
  simp only [le_refl, true_and]
  rw [div_mul_eq_mul_div, le_div_iff₀ hdt']
  rw [show (100 : ℚ) * (dt : ℚ) = (dt : ℚ) * 100 by ring]
  rw [mul_le_mul_right (by norm_num : (0 : ℚ) < 100)]
  exact_mod_cast Iff.rfl

/-- Unfolding `dwellRun` over a cons cell. -/
theorem dwellRun_cons (cfg : DwellConfig) (s : DwellState) (e : DwellEvent)
    (es : List DwellEvent) :
    dwellRun cfg s (e :: es) =
      ((dwellRun cfg (dwellStep cfg s e).1 es).1,
       (dwellStep cfg s e).2 ++ (dwellRun cfg (dwellStep cfg s e).1 es).2) := by
  simp only [dwellRun]

/- ## Trace lemmas on the dwell engine -/

/-- Every fired selection of a single step comes from a frame callback and is
tagged with the time of that callback. -/
theorem dwellStep_fires_time (cfg : DwellConfig) (s : DwellState)
    (e : DwellEvent) :
    ∀ p ∈ (dwellStep cfg s e).2, DwellEvent.isFrame e ∧ p.1 = e.time := by
  intro p hp
  cases e with
  | sampleEvent en g now =>
    rw [dwellStep_sample_fires_nil] at hp
    cases hp
  | frameEvent now =>
    simp only [dwellStep] at hp
    repeat' split at hp
    all_goals simp_all [DwellEvent.isFrame, DwellEvent.time]

/-- Every fired selection of a run comes from some frame event of the trace
and is tagged with its time. -/
theorem dwellRun_fires_time (cfg : DwellConfig) :
    ∀ (l : List DwellEvent) (s : DwellState) (p : ℤ × String),
      p ∈ (dwellRun cfg s l).2 →
      ∃ e ∈ l, DwellEvent.isFrame e ∧ p.1 = e.time := by
  intro l
  induction l with
  | nil => intro s p hp; simp [dwellRun] at hp
  | cons e es ih =>
    intro s p hp
    rw [dwellRun_cons] at hp
    rcases List.mem_append.mp hp with hp | hp
    · obtain ⟨hf, htime⟩ := dwellStep_fires_time cfg s e p hp
      exact ⟨e, List.mem_cons_self _ _, hf, htime⟩
    · obtain ⟨e2, he2, hf, ht⟩ := ih _ p hp
      exact ⟨e2, List.mem_cons_of_mem _ he2, hf, ht⟩

/-- A run consisting only of frame callbacks from a disarmed state is a
no-op: nothing fires and the state is unchanged. -/
theorem dwellRun_frames_unarmed (cfg : DwellConfig) :
    ∀ (l : List DwellEvent) (s : DwellState),
      s.timer = none → (∀ e ∈ l, DwellEvent.isFrame e) →
      dwellRun cfg s l = (s, []) := by
  intro l
  induction l with
  | nil => intro s _ _; rfl
  | cons e es ih =>
    intro s ht hf
    cases e with
    | sampleEvent en g now => exact absurd (hf _ (List.mem_cons_self _ _)) (by simp [DwellEvent.isFrame])
    | frameEvent now =>
      rw [dwellRun_cons, dwellStep_frame_noTimer cfg s now ht,
        ih s ht (fun e2 he2 => hf e2 (List.mem_cons_of_mem _ he2))]
      rfl

/-- During a continuous hold on key `k`, with the dwell start time bounded
below by `b`, every selection fired by the run is for `k` and cannot occur
before `b` plus the dwell threshold. -/
theorem dwell_hold_fires_bound (cfg : DwellConfig) (hdt : 0 < cfg.dwellTime)
    (k : String) :
    ∀ (l : List DwellEvent) (s : DwellState) (b : ℤ),
      s.lastGazeKey = some k →
      (∀ t, s.dwellStart = some t → b ≤ t) →
      (∀ e ∈ l, holdEvent cfg k e) →
      ∀ p ∈ (dwellRun cfg s l).2, p.2 = k ∧ b + cfg.dwellTime ≤ p.1 := by
  intro l
  induction l with
  | nil => intro s b _ _ _ p hp; simp [dwellRun] at hp
  | cons e es ih =>
    intro s b hlast hstart hhold p hp
    rw [dwellRun_cons] at hp
    have hhs : ∀ e2 ∈ es, holdEvent cfg k e2 :=
      fun e2 he2 => hhold e2 (List.mem_cons_of_mem _ he2)
    cases e with
    | sampleEvent en g now =>
      obtain ⟨hen, gd, hg, hsucc, hfind⟩ := hhold _ (List.mem_cons_self _ _)
      subst hen; subst hg
      obtain ⟨h1, h2, _⟩ := dwellStep_sample_hold cfg s gd now k hsucc hfind hlast
      rcases List.mem_append.mp hp with hp | hp
      · rw [dwellStep_sample_fires_nil] at hp; cases hp
      · exact ih _ b h1 (fun t htt => hstart t (by rw [← h2]; exact htt)) hhs p hp
    | frameEvent now =>
      rcases ht : s.timer with _ | k0
      · rw [dwellStep_frame_noTimer cfg s now ht] at hp
        rcases List.mem_append.mp hp with hp | hp
        · cases hp
        · exact ih _ b hlast hstart hhs p hp
      · by_cases hk : s.lastGazeKey = some k0
        · have hk0 : k0 = k := by rw [hlast] at hk; exact (Option.some_inj.mp hk).symm
          subst hk0
          rcases hst : s.dwellStart with _ | t0
          · rw [dwellStep_frame_guard cfg s now k0 ht (Or.inl hst)] at hp
            rcases List.mem_append.mp hp with hp | hp
            · cases hp
            · exact ih { s with timer := none } b hlast hstart hhs p hp
          · have hb : b ≤ t0 := hstart t0 hst
            by_cases hcomp :
              (100 : ℚ) ≤ min 100 (((now - t0 : ℤ) : ℚ) / (cfg.dwellTime : ℚ) * 100)
            · have helap : cfg.dwellTime ≤ now - t0 :=
                (dwell_progress_complete_iff cfg.dwellTime (now - t0) hdt).mp hcomp
              rw [dwellStep_frame_fire cfg s now t0 k0 ht hst hk hcomp] at hp
              rcases List.mem_append.mp hp with hp | hp
              · have hp2 : p = (now, k0) := by simpa using hp
                subst hp2
                exact ⟨rfl, by omega⟩
              · refine ih { s with
                    dwellProgress := 0,
                    dwellStart := some (now + 200),
                    timer := none } b hlast ?_ hhs p hp
                intro t htt
                have h200 : now + 200 = t := Option.some_inj.mp htt
                omega
            · rw [dwellStep_frame_running cfg s now t0 k0 ht hst hk hcomp] at hp
              rcases List.mem_append.mp hp with hp | hp
              · cases hp
              · exact ih { s with
                    dwellProgress :=
                      min 100 (((now - t0 : ℤ) : ℚ) / (cfg.dwellTime : ℚ) * 100),
                    timer := some k0 } b hlast hstart hhs p hp
        · rw [dwellStep_frame_guard cfg s now k0 ht (Or.inr hk)] at hp
          rcases List.mem_append.mp hp with hp | hp
          · cases hp
          · exact ih { s with timer := none } b hlast hstart hhs p hp

/-- Inversion of a firing frame step: a step that fires must have passed the
guard, so the held key is the fired key and the new start time is the firing
time plus the 200 ms cooldown. -/
theorem dwellStep_frame_fire_inv (cfg : DwellConfig) (s : DwellState)
    (now : ℤ) (s2 : DwellState) (p : ℤ × String)
    (h : dwellStep cfg s (.frameEvent now) = (s2, [p])) :
    s2.lastGazeKey = s.lastGazeKey ∧ s.lastGazeKey = some p.2 ∧
    s2.dwellStart = some (now + 200) ∧ p.1 = now := by
  rcases ht : s.timer with _ | k0
  · rw [dwellStep_frame_noTimer cfg s now ht] at h
    cases (Prod.mk.injEq _ _ _ _ ▸ h).2
  · by_cases hk : s.lastGazeKey = some k0
    · rcases hst : s.dwellStart with _ | t0
      · rw [dwellStep_frame_guard cfg s now k0 ht (Or.inl hst)] at h
        cases (Prod.mk.injEq _ _ _ _ ▸ h).2
      · by_cases hcomp :
          (100 : ℚ) ≤ min 100 (((now - t0 : ℤ) : ℚ) / (cfg.dwellTime : ℚ) * 100)
        · rw [dwellStep_frame_fire cfg s now t0 k0 ht hst hk hcomp] at h
          obtain ⟨hs2, hps⟩ := Prod.mk.injEq _ _ _ _ ▸ h
          have hpp : p = (now, k0) := by simpa using hps.symm
          subst hpp
          subst hs2
          exact ⟨rfl, hk, rfl, rfl⟩
        · rw [dwellStep_frame_running cfg s now t0 k0 ht hst hk hcomp] at h
          cases (Prod.mk.injEq _ _ _ _ ▸ h).2
    · rw [dwellStep_frame_guard cfg s now k0 ht (Or.inr hk)] at h
      cases (Prod.mk.injEq _ _ _ _ ▸ h).2

/-- An effect run from the pristine state with gaze enabled and a successful
sample on key `k` arms the engine: held key `k`, dwell start at the sample
time, callback pending, zero progress. -/
theorem dwellStep_sample_arm (cfg : DwellConfig) (gd : GazeData) (a : ℤ)
    (k : String) (hsucc : gd.success = true)
    (hfind : findGazedKey cfg gd.x gd.y = some k) :
    dwellStep cfg initDwellState (.sampleEvent true (some gd) a) =
      ({ gazeKey := some k, dwellProgress := 0, dwellStart := some a,
         lastGazeKey := some k, timer := some k }, []) := by
  have hok : gazeOK true (some gd) = true := by simp [gazeOK, hsucc]
  simp only [dwellStep, hok, hfind, initDwellState]
  simp

/-- During a continuous hold on key `k` that starts armed at time `a`, a
trace whose events all stay within the window before `a + 2*threshold + 200`
and which contains a frame at or past the completion time `a + threshold`
produces exactly one selection. -/
theorem dwell_hold_exactly_one (cfg : DwellConfig) (hdt : 0 < cfg.dwellTime)
    (k : String) :
    ∀ (l : List DwellEvent) (s : DwellState) (a : ℤ),
      s.lastGazeKey = some k → s.dwellStart = some a → s.timer = some k →
      (∀ e ∈ l, holdEvent cfg k e) →
      (∀ e ∈ l, e.time < a + 2 * cfg.dwellTime + 200) →
      (∃ e ∈ l, DwellEvent.isFrame e ∧ a + cfg.dwellTime ≤ e.time) →
      (dwellRun cfg s l).2.length = 1 := by
  intro l
  induction l with
  | nil => intro s a _ _ _ _ _ hex; simp at hex
  | cons e es ih =>
    intro s a hlast hstart htimer hhold hbound hex
    rw [dwellRun_cons, List.length_append]
    have hhs : ∀ e2 ∈ es, holdEvent cfg k e2 :=
      fun e2 he2 => hhold e2 (List.mem_cons_of_mem _ he2)
    have hbs : ∀ e2 ∈ es, e2.time < a + 2 * cfg.dwellTime + 200 :=
      fun e2 he2 => hbound e2 (List.mem_cons_of_mem _ he2)
    cases e with
    | sampleEvent en g now =>
      obtain ⟨hen, gd, hg, hsucc, hfind⟩ := hhold _ (List.mem_cons_self _ _)
      subst hen; subst hg
      obtain ⟨h1, h2, h3⟩ := dwellStep_sample_hold cfg s gd now k hsucc hfind hlast
      have hfn : (dwellStep cfg s (.sampleEvent true (some gd) now)).2 = [] :=
        dwellStep_sample_fires_nil cfg s true (some gd) now
      rw [hfn]
      simp only [List.length_nil, Nat.zero_add]
      have hex2 : ∃ e2 ∈ es, DwellEvent.isFrame e2 ∧ a + cfg.dwellTime ≤ e2.time := by
        obtain ⟨e0, he0, hf0, hge0⟩ := hex
        rcases List.mem_cons.mp he0 with he0 | he0
        · rw [he0] at hf0; cases hf0
        · exact ⟨e0, he0, hf0, hge0⟩
      exact ih _ a h1 (by rw [h2]; exact hstart) (h3 a hstart) hhs hbs hex2
    | frameEvent now =>
      by_cases hcomp :
        (100 : ℚ) ≤ min 100 (((now - a : ℤ) : ℚ) / (cfg.dwellTime : ℚ) * 100)
      · have helap : cfg.dwellTime ≤ now - a :=
          (dwell_progress_complete_iff cfg.dwellTime (now - a) hdt).mp hcomp
        have hstep := dwellStep_frame_fire cfg s now a k htimer hstart hlast hcomp
        have h0 : (dwellStep cfg s (.frameEvent now)).2 = [(now, k)] := by rw [hstep]
        have h1 : (dwellStep cfg s (.frameEvent now)).1.lastGazeKey = some k := by
          rw [hstep]; exact hlast
        have h2 : (dwellStep cfg s (.frameEvent now)).1.dwellStart = some (now + 200) := by
          rw [hstep]
        have hnil :
            (dwellRun cfg (dwellStep cfg s (.frameEvent now)).1 es).2 = [] := by
          rw [List.eq_nil_iff_forall_not_mem]
          intro p hp
          obtain ⟨_, hge⟩ := dwell_hold_fires_bound cfg hdt k es _ (now + 200) h1
            (fun t htt => by
              rw [h2] at htt
              have h200 : now + 200 = t := Option.some_inj.mp htt
              omega)
            hhs p hp
          obtain ⟨e2, he2, _, htime⟩ := dwellRun_fires_time cfg es _ p hp
          have hb2 := hbs e2 he2
          omega
        rw [h0, hnil]
        rfl
      · have hstep := dwellStep_frame_running cfg s now a k htimer hstart hlast hcomp
        have h0 : (dwellStep cfg s (.frameEvent now)).2 = [] := by rw [hstep]
        have h1 : (dwellStep cfg s (.frameEvent now)).1.lastGazeKey = some k := by
          rw [hstep]; exact hlast
        have h2 : (dwellStep cfg s (.frameEvent now)).1.dwellStart = some a := by
          rw [hstep]; exact hstart
        have h3 : (dwellStep cfg s (.frameEvent now)).1.timer = some k := by
          rw [hstep]
        have hex2 : ∃ e2 ∈ es, DwellEvent.isFrame e2 ∧ a + cfg.dwellTime ≤ e2.time := by
          obtain ⟨e0, he0, hf0, hge0⟩ := hex
          rcases List.mem_cons.mp he0 with he0 | he0
          · subst he0
            have helap : cfg.dwellTime ≤ now - a := by
              simp only [DwellEvent.time] at hge0
              omega
            exact absurd
              ((dwell_progress_complete_iff cfg.dwellTime (now - a) hdt).mpr helap) hcomp
          · exact ⟨e0, he0, hf0, hge0⟩
        rw [h0]
        simp only [List.length_nil, Nat.zero_add]
        exact ih _ a h1 h2 h3 hhs hbs hex2

/-- C3: the dwell engine fires at most one selection per step; while gaze
tracking is disabled or the sample is unsuccessful nothing fires (the
disabling effect run clears and disarms the engine, and every later frame
callback is inert until a new enabled successful sample arrives); after a
completed dwell fires, a continuous hold cannot complete again before the
200 ms cooldown plus a full dwell threshold has elapsed; and a continuous
hold on one key over a bounded window containing a frame at or past the
threshold fires exactly one selection, whatever the tick frequency. -/
theorem dwell_selection_exactly_once (cfg : DwellConfig) (k : String)
    (hdt : 0 < cfg.dwellTime) :
    (∀ (s : DwellState) (e : DwellEvent), (dwellStep cfg s e).2.length ≤ 1) ∧
    (∀ (s : DwellState) (en : Bool) (g : Option GazeData) (now : ℤ)
        (frames : List DwellEvent),
      gazeOK en g = false →
      (∀ e ∈ frames, DwellEvent.isFrame e) →
      (dwellRun cfg s (.sampleEvent en g now :: frames)).2 = []) ∧
    (∀ (s s2 : DwellState) (t0 : ℤ) (l : List DwellEvent),
      dwellStep cfg s (.frameEvent t0) = (s2, [(t0, k)]) →
      (∀ e ∈ l, holdEvent cfg k e) →
      ∀ p ∈ (dwellRun cfg s2 l).2, t0 + 200 + cfg.dwellTime ≤ p.1) ∧
    (∀ (a : ℤ) (gd : GazeData) (l : List DwellEvent),
      gd.success = true →
      findGazedKey cfg gd.x gd.y = some k →
      (∀ e ∈ l, holdEvent cfg k e) →
      (∀ e ∈ l, e.time < a + 2 * cfg.dwellTime + 200) →
      (∃ e ∈ l, DwellEvent.isFrame e ∧ a + cfg.dwellTime ≤ e.time) →
      (dwellRun cfg
        (dwellStep cfg initDwellState (.sampleEvent true (some gd) a)).1 l).2.length
        = 1) := by
  refine ⟨?_, ?_, ?_, ?_⟩
  · intro s e
    cases e with
    | sampleEvent en g now =>
      rw [dwellStep_sample_fires_nil]
      exact Nat.zero_le 1
    | frameEvent now =>
      simp only [dwellStep]
      repeat' split
      all_goals simp
  · intro s en g now frames hdis hf
    rw [dwellRun_cons, dwellStep_sample_disabled cfg s en g now hdis]
    simp [dwellRun_frames_unarmed cfg frames initDwellState rfl hf]
  · intro s s2 t0 l hstep hhold p hp
    obtain ⟨h1, h2, h3, _⟩ := dwellStep_frame_fire_inv cfg s t0 s2 (t0, k) hstep
    obtain ⟨_, hge⟩ := dwell_hold_fires_bound cfg hdt k l s2 (t0 + 200)
      (h1.trans h2)
      (fun t htt => by
        rw [h3] at htt
        have h200 : t0 + 200 = t := Option.some_inj.mp htt
        omega)
      hhold p hp
    omega
  · intro a gd l hsucc hfind hhold hbound hex
    have harm := dwellStep_sample_arm cfg gd a k hsucc hfind
    exact dwell_hold_exactly_one cfg hdt k l _ a
      (by rw [harm]) (by rw [harm]) (by rw [harm]) hhold hbound hex

/-- Witness for C3: holding key `a` of the sample configuration from time 0
and letting the frame callback run at the 800 ms threshold fires exactly one
selection. -/
theorem dwell_selection_exactly_once_witness :
    (dwellRun sampleDwellConfig
      (dwellStep sampleDwellConfig initDwellState
        (DwellEvent.sampleEvent true (some sampleGazeOnA) 0)).1
      [DwellEvent.frameEvent 800]).2.length = 1 := by
  refine (dwell_selection_exactly_once sampleDwellConfig "a" (by decide)).2.2.2
    0 sampleGazeOnA [DwellEvent.frameEvent 800] rfl
    (by norm_num [findGazedKey, sampleDwellConfig, sampleGazeOnA, List.find?]) ?_ ?_ ?_
  · intro e he
    rw [List.mem_singleton] at he
    subst he
    exact trivial
  · intro e he
    rw [List.mem_singleton] at he
    subst he
    decide
  · exact ⟨DwellEvent.frameEvent 800, List.mem_singleton_self _, trivial, by decide⟩

/-- C4: when the key under the gaze point differs from the previously hit
key, the same evaluation resets the dwell progress to zero and restarts the
dwell timer at the current time (or clears it when no key is hit), so no
partial progress carries over to a different target. -/
theorem dwell_reset_on_target_change (cfg : DwellConfig) (s : DwellState)
    (gd : GazeData) (now : ℤ)
    (hsucc : gd.success = true)
    (hchange : findGazedKey cfg gd.x gd.y ≠ s.lastGazeKey) :
    (dwellStep cfg s (.sampleEvent true (some gd) now)).1.dwellProgress = 0 ∧
    (dwellStep cfg s (.sampleEvent true (some gd) now)).1.lastGazeKey
      = findGazedKey cfg gd.x gd.y ∧
    (dwellStep cfg s (.sampleEvent true (some gd) now)).1.dwellStart
      = (if (findGazedKey cfg gd.x gd.y).isSome then some now else none) ∧
    (dwellStep cfg s (.sampleEvent true (some gd) now)).2 = [] := by
  have hok : gazeOK true (some gd) = true := by simp [gazeOK, hsucc]
  refine ⟨?_, ?_, ?_, dwellStep_sample_fires_nil cfg s true (some gd) now⟩
  all_goals
    rcases hk : findGazedKey cfg gd.x gd.y with _ | key
  all_goals
    rw [hk] at hchange
  all_goals
    simp [dwellStep, hok, hk, hchange]

/-- Witness for C4: a hold on key `a` at 62 percent progress jumping to key
`b` at time 500 reads zero progress and a restarted timer on that same
evaluation. -/
theorem dwell_reset_on_target_change_witness :
    (dwellStep sampleDwellConfig dwellHoldingAState
      (DwellEvent.sampleEvent true (some sampleGazeOnB) 500)).1.dwellProgress = 0 ∧
    (dwellStep sampleDwellConfig dwellHoldingAState
      (DwellEvent.sampleEvent true (some sampleGazeOnB) 500)).1.dwellStart
      = some 500 := by
  have hb : findGazedKey sampleDwellConfig sampleGazeOnB.x sampleGazeOnB.y
      = some "b" := by
    norm_num [findGazedKey, sampleDwellConfig, sampleGazeOnB, List.find?]
  have h := dwell_reset_on_target_change sampleDwellConfig dwellHoldingAState
    sampleGazeOnB 500 rfl (by simp [hb, dwellHoldingAState])
  refine ⟨h.1, ?_⟩
  rw [h.2.2.1]
  simp [hb]
